import Mathlib

/-!
Verification of the QuickBooks Online API integration service
(`src/quickbooks/quickbooks.service.ts`, second class definition,
lines 1362-2178, together with `utils/quickbooks.helper.ts`).

The TypeScript service keeps one mutable session (access token, refresh
token, realm id, expiry timestamp) and wraps every upstream call in an
expiry-check / refresh / retry-on-401 protocol.  The embedding below
translates the session state, the token-lifecycle operations and the
query helpers into pure Lean functions.  Effects are made explicit:

* timestamps are `Int` milliseconds (JS `Date.now()` values); `now` is a
  field of the `World` record and is constant during one operation, which
  matches the source because no operation reads the clock twice in a way
  any claim depends on;
* the vendor HTTP endpoints are oracles in the `World` record, indexed by
  how many requests of that kind have been issued so far;
* thrown `HttpException`s become `Except.error` values carrying the same
  payload fields;
* JavaScript truthiness on optional strings / numbers is modelled
  explicitly (`jsTruthy`, `jsTruthyInt`): `null`/`undefined` and the empty
  string (resp. `0`) are falsy.
-/

namespace QBO

/-- JS truthiness of an optional string: `null`/`undefined` and `""` are falsy. -/
def jsTruthy : Option String → Bool
  | none => false
  | some s => s ≠ ""

/-- JS truthiness of an optional number: `null`/`undefined` and `0` are falsy. -/
def jsTruthyInt : Option Int → Bool
  | none => false
  | some n => n ≠ 0

/-- JS `a || b` where `a` is an optional string and `b` a string. -/
def jsOrS (a : Option String) (b : String) : String :=
  if jsTruthy a then a.getD "" else b

/-- JS `a || b` on optional strings (the result may still be falsy). -/
def jsOrOS (a b : Option String) : Option String :=
  if jsTruthy a then a else b

/-- JS `a || b` on optional numbers, producing a number. -/
def jsOrI (a : Option Int) (b : Int) : Int :=
  match a with
  | some n => if n ≠ 0 then n else b
  | none => b

/-- JS `a || b` on optional numbers, keeping the result optional. -/
def jsOrON (a b : Option Nat) : Option Nat :=
  match a with
  | some n => if n ≠ 0 then some n else b
  | none => b

/-- JS `a || b` on optional objects / arrays (every object, even `[]`, is truthy). -/
def jsOrObj {α : Type} (a b : Option α) : Option α :=
  match a with
  | some x => some x
  | none => b

/-- The single-quote character, kept as a named constant so the
QuickBooks query strings can be built exactly as in the source. -/
def sqChar : Char := Char.ofNat 39

/-- A single-quote as a one-character string. -/
def sq : String := String.mk [sqChar]

/-- JS template interpolation of a nullable string: `null` prints as "null". -/
def jsInterp : Option String → String
  | none => "null"
  | some s => s

/-- The mutable session fields of `QuickbooksService`:
`accessToken`, `refreshToken`, `realmId`, `tokenExpiresAt`
(all initialised to `null` in the source; `tokenExpiresAt` is a `Date`,
modelled as epoch milliseconds). -/
structure Session where
  accessToken : Option String
  refreshToken : Option String
  realmId : Option String
  tokenExpiresAt : Option Int
deriving Repr, DecidableEq

/-- `setAccessToken(accessToken, realmId, refreshToken?, expiresIn?)`
(service lines 1417-1427, identical to lines 80-90):
unconditionally stores the access token and realm id; stores the refresh
token only when the argument is truthy; stores
`tokenExpiresAt = new Date(Date.now() + expiresIn * 1000)` only when
`expiresIn` is truthy. -/
def setAccessToken (s : Session) (now : Int) (accessToken realmId : String)
    (refreshToken : Option String) (expiresIn : Option Int) : Session :=
  { accessToken := some accessToken
    realmId := some realmId
    refreshToken := if jsTruthy refreshToken then refreshToken else s.refreshToken
    tokenExpiresAt :=
      if jsTruthyInt expiresIn then some (now + expiresIn.getD 0 * 1000)
      else s.tokenExpiresAt }

/-- `isTokenExpired()` (service lines 1449-1460): if the access token is
falsy and a refresh token is on file, report expired; otherwise, with no
`tokenExpiresAt`, report valid; otherwise compare against
`Date.now() + 5 * 60 * 1000` (inclusive). -/
def isTokenExpired (s : Session) (now : Int) : Bool :=
  if !(jsTruthy s.accessToken) && jsTruthy s.refreshToken then
    true
  else
    match s.tokenExpiresAt with
    | none => false
    | some t => decide (t ≤ now + 5 * 60 * 1000)

/-- Reference definition of `isExpired()` transcribed from the
specification text (spec section 4.1): true if `accessTokenExpiry` is
present and at or before `now + 5 minutes` (inclusive boundary); false
when absent; with the overriding special case that an absent access
token together with a present refresh token counts as expired.
"Present"/"absent" follows the session fields as the code stores them,
i.e. JS-truthy/falsy. -/
def isExpiredSpec (s : Session) (now : Int) : Bool :=
  if !(jsTruthy s.accessToken) && jsTruthy s.refreshToken then
    true
  else
    match s.tokenExpiresAt with
    | some t => decide (t ≤ now + 5 * 60 * 1000)
    | none => false

/-- One error-detail record of the vendor fault envelope.  QuickBooks
mixes upper- and lower-case key conventions, so both spellings of each
field are separate optional keys, exactly as the helper reads them. -/
structure ErrorDetail where
  Detail : Option String
  detail : Option String
  Message : Option String
  message : Option String
  code : Option String
deriving Repr, DecidableEq

/-- The fault object: `Fault.Error` / `fault.error` arrays (either
case spelling may be present). -/
structure FaultBody where
  Error : Option (List ErrorDetail)
  error : Option (List ErrorDetail)
deriving Repr, DecidableEq

/-- `error.response.data`: the body of a failed vendor response,
holding the fault envelope under either key spelling. -/
structure FaultEnvelope where
  Fault : Option FaultBody
  fault : Option FaultBody
deriving Repr, DecidableEq

/-- A fault envelope with no fault keys at all. -/
def FaultEnvelope.empty : FaultEnvelope := { Fault := none, fault := none }

/-- The `response` member of an axios error: HTTP status and body. -/
structure ApiResponse where
  data : Option FaultEnvelope
  status : Option Nat
deriving Repr, DecidableEq

/-- An axios-style error as caught in the service: an optional
`response` (absent for network failures) and an optional `status`
property of the error object itself. -/
structure ApiError where
  response : Option ApiResponse
  status : Option Nat
deriving Repr, DecidableEq

/-- The `Id`/`Name`/`Type` projection of an existing item embedded in the
duplicate-name error payload (`Type` is a reserved word in Lean, hence
the `TypeF` field name). -/
structure ExistingItem where
  Id : Option String
  Name : Option String
  TypeF : Option String
deriving Repr, DecidableEq

/-- A thrown `HttpException`, flattened: the `message`, and the optional
payload fields the service ever sets (`code`, `detail`, `hint`,
`existingItem`, `originalError`) together with the HTTP status.  A
string-bodied `HttpException` leaves all optional fields `none`. -/
structure HttpError where
  message : String
  code : Option String
  detail : Option String
  hint : Option String
  existingItem : Option ExistingItem
  originalError : Option FaultEnvelope
  status : Nat
deriving Repr, DecidableEq

/-- A string-bodied `HttpException(message, status)`. -/
def HttpError.ofString (message : String) (status : Nat) : HttpError :=
  { message := message, code := none, detail := none, hint := none,
    existingItem := none, originalError := none, status := status }

/-- `QuickBooksHelper.handleApiError(error, context)`
(`utils/quickbooks.helper.ts`): normalises the vendor fault envelope
across both key-case conventions and throws an `HttpException` carrying
message / code / detail / originalError and the response status
(defaulting to 400).  `error.response?.data || error.response || {}`:
when the response is present but its `data` is absent, `responseData` is
the axios response object itself, which carries no fault keys, so the
extraction behaves as on an empty envelope. -/
def handleApiError (e : ApiError) (context : String) : HttpError :=
  let responseData : FaultEnvelope :=
    match e.response with
    | none => FaultEnvelope.empty
    | some r =>
      match r.data with
      | some d => d
      | none => FaultEnvelope.empty
  let fb : Option FaultBody := jsOrObj responseData.Fault responseData.fault
  let errorList : Option (List ErrorDetail) :=
    match fb with
    | none => none
    | some f => jsOrObj f.Error f.error
  let errorDetail : Option ErrorDetail :=
    match errorList with
    | none => none
    | some l => l.head?
  let errorMessage : String :=
    jsOrS (errorDetail.bind (fun d => d.Detail))
      (jsOrS (errorDetail.bind (fun d => d.detail))
        (jsOrS (errorDetail.bind (fun d => d.Message))
          (jsOrS (errorDetail.bind (fun d => d.message))
            ("Failed to " ++ context.toLower))))
  let statusCode : Nat :=
    match jsOrON (e.response.bind (fun r => r.status)) e.status with
    | some n => n
    | none => 400
  { message := errorMessage
    code := errorDetail.bind (fun d => d.code)
    detail := jsOrOS (errorDetail.bind (fun d => d.Detail))
      (errorDetail.bind (fun d => d.detail))
    hint := none
    existingItem := none
    originalError := some responseData
    status := statusCode }

/-- `error.response?.status || error.status` as computed at the top of
`makeRequest`'s catch block. -/
def requestStatusCode (e : ApiError) : Option Nat :=
  jsOrON (e.response.bind (fun r => r.status)) e.status

/-- `error.response?.data?.Fault?.Error?.[0]?.code === '3200'`
(upper-case chain). -/
def fault3200Upper (e : ApiError) : Bool :=
  match e.response with
  | none => false
  | some r =>
    match r.data with
    | none => false
    | some d =>
      match d.Fault with
      | none => false
      | some f =>
        match f.Error with
        | none => false
        | some l =>
          match l.head? with
          | none => false
          | some det => det.code == some "3200"

/-- `error.response?.data?.fault?.error?.[0]?.code === '3200'`
(lower-case chain). -/
def fault3200Lower (e : ApiError) : Bool :=
  match e.response with
  | none => false
  | some r =>
    match r.data with
    | none => false
    | some d =>
      match d.fault with
      | none => false
      | some f =>
        match f.error with
        | none => false
        | some l =>
          match l.head? with
          | none => false
          | some det => det.code == some "3200"

/-- The authentication-failure test of `makeRequest`:
`statusCode === 401 || Fault.Error[0].code === '3200' ||
fault.error[0].code === '3200'`. -/
def isAuthErrorOf (e : ApiError) : Bool :=
  requestStatusCode e == some 401 || fault3200Upper e || fault3200Lower e

/-- The JSON body the vendor token endpoint returns on success
(`tokenData` in the source).  `refresh_token` and `realmId` may be
omitted (rotation vs. reuse; realm fallback). -/
structure VendorTokenData where
  access_token : String
  refresh_token : Option String
  expires_in : Option Int
  token_type : String
  realmId : Option String
deriving Repr, DecidableEq

/-- The `QuickBooksTokenResponse` value `refreshAccessToken` returns
after applying the refresh-token / realm-id fallbacks. -/
structure TokenResponse where
  access_token : String
  refresh_token : String
  expires_in : Option Int
  token_type : String
  realmId : String
deriving Repr, DecidableEq

/-- One row of a `QueryResponse` entity array.  Only the fields the
modelled operations read are kept: `Id`, `Name`, `Type` (spelled `TypeF`,
`Type` being reserved in Lean) and the `Count` field of a count-query
row. -/
structure Row where
  Id : Option String
  Name : Option String
  TypeF : Option String
  Count : Option String
deriving Repr, DecidableEq

/-- `response.data.QueryResponse`: an optional `totalCount` and the
entity-keyed arrays (`QueryResponse[entity]`), modelled as an
association list from entity name to rows. -/
structure QueryResponse where
  totalCount : Option Int
  rows : List (String × List Row)
deriving Repr, DecidableEq

/-- `QueryResponse[entity]`: `none` when the key is absent (an empty
array, being truthy in JS, is still `some []`). -/
def QueryResponse.ent (q : QueryResponse) (entity : String) : Option (List Row) :=
  (q.rows.find? (fun p => p.1 == entity)).map (fun p => p.2)

/-- The body of a successful resource response.  `QueryResponse` is kept
total because the query endpoint always returns one on success (the
source casts `response.data.QueryResponse` without a check); `Item`
models the `data.Item` key of a create-item response. -/
structure RespData where
  QueryResponse : QueryResponse
  Item : Option Row
deriving Repr, DecidableEq

/-- A successful axios response. -/
structure Resp where
  data : RespData
deriving Repr, DecidableEq

/-- One resource HTTP attempt as issued by `makeRequest`: its method,
url, the `config.params.query` string if any, and the `isRetry` flag the
attempt was issued under. -/
structure Req where
  method : String
  url : String
  query : Option String
  isRetry : Bool
deriving Repr, DecidableEq

/-- The external world: the clock, the token endpoint's answer to the
n-th refresh POST, the resource API's answer to the n-th resource
request, and the outcome of `formatItemRequestBody`'s account
resolution (abstracted: no claim depends on its internals).  A token
endpoint failure is represented by its HTTP status. -/
structure World where
  now : Int
  tokenEndpoint : Nat → Except Nat VendorTokenData
  httpCall : Nat → Except ApiError Resp
  itemBody : Except HttpError Unit

/-- The instrumented service state threaded through every operation:
the session plus a count of token-endpoint POSTs and the ordered list of
resource requests issued so far. -/
structure Mach where
  session : Session
  refreshCount : Nat
  requests : List Req
deriving Repr, DecidableEq

/-- `refreshAccessToken(refreshToken)` (service lines 1598-1645): POST
`grant_type=refresh_token` to the token endpoint.  On success compute
`newRefreshToken = tokenData.refresh_token || refreshToken` and
`realmId = tokenData.realmId || this.realmId || ''`, store them via
`setAccessToken`, and return the token payload.  On any failure, throw
`HttpException('Failed to refresh access token', 400)` regardless of the
endpoint's own status. -/
def refreshAccessTokenM (w : World) (m : Mach) (refreshToken : String) :
    Except HttpError TokenResponse × Mach :=
  let vendor := w.tokenEndpoint m.refreshCount
  let m1 : Mach := { m with refreshCount := m.refreshCount + 1 }
  match vendor with
  | Except.error _ =>
    (Except.error (HttpError.ofString "Failed to refresh access token" 400), m1)
  | Except.ok tokenData =>
    let newRefreshToken := jsOrS tokenData.refresh_token refreshToken
    let realm := jsOrS tokenData.realmId (jsOrS m.session.realmId "")
    let s1 := setAccessToken m1.session w.now tokenData.access_token realm
      (some newRefreshToken) tokenData.expires_in
    (Except.ok
      { access_token := tokenData.access_token
        refresh_token := newRefreshToken
        expires_in := tokenData.expires_in
        token_type := tokenData.token_type
        realmId := realm },
      { m1 with session := s1 })

/-- `ensureValidToken()` (service lines 1465-1498): a no-op when no
refresh token is on file; otherwise, when `isTokenExpired()`, call
`refreshAccessToken` and re-store its result via `setAccessToken`; if
the refresh fails with status 401 or 400, throw the terminal
re-authentication `HttpException` with status 401, otherwise rethrow the
failure unchanged. -/
def ensureValidTokenM (w : World) (m : Mach) : Except HttpError Unit × Mach :=
  if !(jsTruthy m.session.refreshToken) then
    (Except.ok (), m)
  else if isTokenExpired m.session w.now then
    match refreshAccessTokenM w m (m.session.refreshToken.getD "") with
    | (Except.ok tokenResponse, m1) =>
      (Except.ok (),
        { m1 with session := (setAccessToken m1.session w.now
            tokenResponse.access_token tokenResponse.realmId
            (some tokenResponse.refresh_token) tokenResponse.expires_in) })
    | (Except.error e, m1) =>
      if e.status == 401 || e.status == 400 then
        (Except.error (HttpError.ofString
          "Refresh token expired or invalid. Please re-authenticate to get a new refresh token."
          401), m1)
      else
        (Except.error e, m1)
  else
    (Except.ok (), m)

/-- `makeRequest` specialised to `isRetry = true` (service lines
1662-1698).  With `isRetry` set, the retry guard
`isAuthError && !isRetry && this.refreshToken` is always false, so every
failure of the issued call falls through to the final
`handleApiError(error, context)`; the specialisation makes that
fall-through explicit and keeps the recursion of the general wrapper
structural. -/
def makeRequestRetry (w : World) (m : Mach) (method url : String)
    (query : Option String) : Except HttpError Resp × Mach :=
  match ensureValidTokenM w m with
  | (Except.error e, m1) => (Except.error e, m1)
  | (Except.ok _, m1) =>
    let outcome := w.httpCall m1.requests.length
    let m2 : Mach := { m1 with
      requests := m1.requests ++ [{ method := method, url := url, query := query, isRetry := true }] }
    match outcome with
    | Except.ok r => (Except.ok r, m2)
    | Except.error err =>
      (Except.error (handleApiError err
        ("API Request " ++ method.toUpper ++ " " ++ url)), m2)

/-- `makeRequest(method, url, data?, config?, isRetry = false)` (service
lines 1662-1698): run `ensureValidToken` (its throw propagates
untried), issue the call, and on failure classify it; when it is an
authentication failure, this is not already a retry and a refresh token
is on file, refresh and retry once with `isRetry = true` — the retry
runs inside the same `try` as the refresh, so any throw out of either
one is caught by the `catch (refreshError)` handler, which reports the
ORIGINAL error via `handleApiError(error, 'API Request (after failed
refresh)')`.  All other failures surface through
`handleApiError(error, context)` immediately. -/
def makeRequestM (w : World) (m : Mach) (method url : String)
    (query : Option String) (isRetry : Bool) : Except HttpError Resp × Mach :=
  if isRetry then
    makeRequestRetry w m method url query
  else
    match ensureValidTokenM w m with
    | (Except.error e, m1) => (Except.error e, m1)
    | (Except.ok _, m1) =>
      let outcome := w.httpCall m1.requests.length
      let m2 : Mach := { m1 with
        requests := m1.requests ++ [{ method := method, url := url, query := query, isRetry := false }] }
      match outcome with
      | Except.ok r => (Except.ok r, m2)
      | Except.error err =>
        if isAuthErrorOf err && jsTruthy m2.session.refreshToken then
          match refreshAccessTokenM w m2 (m2.session.refreshToken.getD "") with
          | (Except.error _, m3) =>
            (Except.error (handleApiError err "API Request (after failed refresh)"), m3)
          | (Except.ok _, m3) =>
            match makeRequestRetry w m3 method url query with
            | (Except.ok r, m4) => (Except.ok r, m4)
            | (Except.error _, m4) =>
              (Except.error (handleApiError err "API Request (after failed refresh)"), m4)
        else
          (Except.error (handleApiError err
            ("API Request " ++ method.toUpper ++ " " ++ url)), m2)

namespace QuickBooksHelper

/-- `QuickBooksHelper.formatQuery(entity, maxResults, startPosition, where?)`:
`SELECT * FROM entity [WHERE ...] MAXRESULTS n STARTPOSITION m`.  The
`if (where)` guard is JS truthiness, so an empty where-string is skipped. -/
def formatQuery (entity : String) (maxResults startPosition : Int)
    (whereClause : Option String) : String :=
  let q := "SELECT * FROM " ++ entity
  let q := if jsTruthy whereClause then q ++ " WHERE " ++ whereClause.getD "" else q
  q ++ " MAXRESULTS " ++ toString maxResults ++ " STARTPOSITION " ++ toString startPosition

/-- `QuickBooksHelper.formatCountQuery(entity, where?)`:
`SELECT COUNT(*) FROM entity [WHERE ...]`. -/
def formatCountQuery (entity : String) (whereClause : Option String) : String :=
  let q := "SELECT COUNT(*) FROM " ++ entity
  if jsTruthy whereClause then q ++ " WHERE " ++ whereClause.getD "" else q

/-- `QuickBooksHelper.escapeQueryValue(value)`: double every single
quote (`value.replace(/'/g, "''")`). -/
def escapeQueryValue (value : String) : String :=
  String.mk (value.data.foldr
    (fun c acc => if c = sqChar then sqChar :: sqChar :: acc else c :: acc) [])

end QuickBooksHelper

/-- JS `parseInt` on an optional string, at radix 10: skip leading
spaces, accept an optional minus sign, parse leading digits; `none`
models `NaN` (no digits, or input `undefined`). -/
def parseIntJS : Option String → Option Int
  | none => none
  | some s =>
    let digitsVal : List Char → Option Nat :=
      fun cs =>
        (cs.takeWhile Char.isDigit).foldl
          (fun acc c => some ((acc.getD 0) * 10 + (c.toNat - 48))) none
    let cs := s.data.dropWhile (fun c => c = Char.ofNat 32)
    match cs with
    | [] => none
    | c :: rest =>
      if c = Char.ofNat 45 then (digitsVal rest).map (fun n => -(Int.ofNat n))
      else (digitsVal cs).map Int.ofNat

/-- `/v3/company/${this.realmId}/query` (a `null` realm id interpolates
as the string "null", as in JS). -/
def companyQueryUrl (realmId : Option String) : String :=
  "/v3/company/" ++ jsInterp realmId ++ "/query"

/-- `/v3/company/${this.realmId}/{entity}`. -/
def companyEntityUrl (realmId : Option String) (entity : String) : String :=
  "/v3/company/" ++ jsInterp realmId ++ "/" ++ entity

/-- The paginated result `{ totalCount, startPosition, maxResults, items }`. -/
structure PaginatedResponse where
  totalCount : Int
  startPosition : Int
  maxResults : Int
  items : List Row
deriving Repr, DecidableEq

/-- `executeQuery(entity, maxResults, startPosition, where?)` (service
lines 1703-1744): issue the formatted entity query through
`makeRequest`, read `items = QueryResponse[entity] || []`, then try the
count query; a count failure is caught and degrades `totalCount` to
`items.length`; on count success use `countData.totalCount` when
defined, else `parseInt(countData[entity][0].Count) || items.length`
when a first count row exists, else `items.length`. -/
def executeQuery (w : World) (m : Mach) (entity : String)
    (maxResults startPosition : Int) (whereClause : Option String) :
    Except HttpError PaginatedResponse × Mach :=
  let query := QuickBooksHelper.formatQuery entity maxResults startPosition whereClause
  match makeRequestM w m "get" (companyQueryUrl m.session.realmId) (some query) false with
  | (Except.error e, m1) => (Except.error e, m1)
  | (Except.ok response, m1) =>
    let queryResponse := response.data.QueryResponse
    let items := (queryResponse.ent entity).getD []
    let countQuery := QuickBooksHelper.formatCountQuery entity whereClause
    match makeRequestM w m1 "get" (companyQueryUrl m1.session.realmId) (some countQuery) false with
    | (Except.error _, m2) =>
      (Except.ok
        { totalCount := (Int.ofNat items.length)
          startPosition := startPosition
          maxResults := maxResults
          items := items }, m2)
    | (Except.ok countResponse, m2) =>
      let countData := countResponse.data.QueryResponse
      let totalCount : Int :=
        match countData.totalCount with
        | some n => n
        | none =>
          match countData.ent entity with
          | some (r0 :: _) => jsOrI (parseIntJS r0.Count) (Int.ofNat items.length)
          | _ => Int.ofNat items.length
      (Except.ok
        { totalCount := totalCount
          startPosition := startPosition
          maxResults := maxResults
          items := items }, m2)

/-- The where-clause of the query-by-id operations:
`Id = '${escapeQueryValue(id)}'`. -/
def idWhere (id : String) : String :=
  "Id = " ++ sq ++ QuickBooksHelper.escapeQueryValue id ++ sq

/-- `getCustomerById(customerId)` (service lines 1920-1926): query one
customer by id; zero rows throw `HttpException(..., 404)`, otherwise
return the first row. -/
def getCustomerById (w : World) (m : Mach) (customerId : String) :
    Except HttpError Row × Mach :=
  match executeQuery w m "Customer" 1 1 (some (idWhere customerId)) with
  | (Except.error e, m1) => (Except.error e, m1)
  | (Except.ok result, m1) =>
    match result.items with
    | [] =>
      (Except.error (HttpError.ofString
        ("Customer with ID " ++ customerId ++ " not found") 404), m1)
    | r :: _ => (Except.ok r, m1)

/-- `getInvoiceById(invoiceId)` (service lines 2001-2007): same shape as
`getCustomerById` over the `Invoice` entity. -/
def getInvoiceById (w : World) (m : Mach) (invoiceId : String) :
    Except HttpError Row × Mach :=
  match executeQuery w m "Invoice" 1 1 (some (idWhere invoiceId)) with
  | (Except.error e, m1) => (Except.error e, m1)
  | (Except.ok result, m1) =>
    match result.items with
    | [] =>
      (Except.error (HttpError.ofString
        ("Invoice with ID " ++ invoiceId ++ " not found") 404), m1)
    | r :: _ => (Except.ok r, m1)

/-- `getItemById(itemId)` (service lines 2054-2060): same shape as
`getCustomerById` over the `Item` entity. -/
def getItemById (w : World) (m : Mach) (itemId : String) :
    Except HttpError Row × Mach :=
  match executeQuery w m "Item" 1 1 (some (idWhere itemId)) with
  | (Except.error e, m1) => (Except.error e, m1)
  | (Except.ok result, m1) =>
    match result.items with
    | [] =>
      (Except.error (HttpError.ofString
        ("Item with ID " ++ itemId ++ " not found") 404), m1)
    | r :: _ => (Except.ok r, m1)

/-- The where-clause of the pre-create name lookup:
`Name = '${escapeQueryValue(name)}' AND Active IN (true, false)` —
the `Active IN (true, false)` conjunct makes the lookup cover inactive
items as well. -/
def nameActiveWhere (itemName : String) : String :=
  "Name = " ++ sq ++ QuickBooksHelper.escapeQueryValue itemName ++ sq ++
    " AND Active IN (true, false)"

/-- `findItemByName(itemName)` (service lines 2065-2068): query one item
by name (including inactive items); return the first row or `null`. -/
def findItemByName (w : World) (m : Mach) (itemName : String) :
    Except HttpError (Option Row) × Mach :=
  match executeQuery w m "Item" 1 1 (some (nameActiveWhere itemName)) with
  | (Except.error e, m1) => (Except.error e, m1)
  | (Except.ok result, m1) =>
    match result.items with
    | r :: _ => (Except.ok (some r), m1)
    | [] => (Except.ok none, m1)

/-- The `createItem` argument fields the modelled paths read. -/
structure ItemInput where
  Name : String
  TypeF : String
deriving Repr, DecidableEq

/-- `createItem(itemData)` (service lines 2073-2096): look the name up
first; a hit throws `HttpException` 409 CONFLICT carrying
`DUPLICATE_ITEM_NAME`, the existing item's Id/Name/Type and a hint,
before any create request is issued.  Otherwise format the request body
(`formatItemRequestBody`, whose account resolution is abstracted as
`w.itemBody`) and POST `/v3/company/{realmId}/item`; the response's
`data.Item || data` fallback is collapsed to the `Item` key. -/
def createItem (w : World) (m : Mach) (itemData : ItemInput) :
    Except HttpError Row × Mach :=
  match findItemByName w m itemData.Name with
  | (Except.error e, m1) => (Except.error e, m1)
  | (Except.ok (some existingItem), m1) =>
    (Except.error
      { message := "An item with the name \"" ++ itemData.Name ++ "\" already exists"
        code := some "DUPLICATE_ITEM_NAME"
        detail := none
        hint := some "Item names must be unique in QuickBooks. Please use a different name or update the existing item."
        existingItem := some
          { Id := existingItem.Id, Name := existingItem.Name, TypeF := existingItem.TypeF }
        originalError := none
        status := 409 }, m1)
  | (Except.ok none, m1) =>
    match w.itemBody with
    | Except.error e => (Except.error e, m1)
    | Except.ok _ =>
      match makeRequestM w m1 "post" (companyEntityUrl m1.session.realmId "item") none false with
      | (Except.error e, m2) => (Except.error e, m2)
      | (Except.ok response, m2) =>
        (Except.ok ((response.data.Item).getD
          { Id := none, Name := none, TypeF := none, Count := none }), m2)

/-! ## Helper lemmas shared by the claim theorems -/

/-- When the session is not expired, `ensureValidToken` is a no-op
whether or not a refresh token is on file. -/
theorem ensureValidTokenM_noop (w : World) (m : Mach)
    (h : isTokenExpired m.session w.now = false) :
    ensureValidTokenM w m = (Except.ok (), m) := by
  cases hrt : jsTruthy m.session.refreshToken <;>
    simp [ensureValidTokenM, hrt, h]

/-- A non-expired session and a successful call: `makeRequest` returns
the response and records exactly one attempt. -/
theorem makeRequestM_ok (w : World) (m : Mach) (method url : String)
    (query : Option String) (r : Resp)
    (hnx : isTokenExpired m.session w.now = false)
    (h : w.httpCall m.requests.length = Except.ok r) :
    makeRequestM w m method url query false =
      (Except.ok r, { m with requests := m.requests ++
        [{ method := method, url := url, query := query, isRetry := false }] }) := by
  simp [makeRequestM, ensureValidTokenM_noop w m hnx, h]

/-- A non-expired session and a failing call that is not an
authentication failure: `makeRequest` surfaces `handleApiError` on that
error without any retry. -/
theorem makeRequestM_err_no_retry (w : World) (m : Mach) (method url : String)
    (query : Option String) (e : ApiError)
    (hnx : isTokenExpired m.session w.now = false)
    (h : w.httpCall m.requests.length = Except.error e)
    (hna : isAuthErrorOf e = false) :
    makeRequestM w m method url query false =
      (Except.error (handleApiError e ("API Request " ++ method.toUpper ++ " " ++ url)),
       { m with requests := m.requests ++
        [{ method := method, url := url, query := query, isRetry := false }] }) := by
  simp [makeRequestM, ensureValidTokenM_noop w m hnx, h, hna]

/-! ## Claim theorems -/

/-- Claim C2: `isTokenExpired` coincides with the reference definition
transcribed from the spec: true iff `tokenExpiresAt` is present and at
or before `now + 5` minutes (inclusive boundary), false when
`tokenExpiresAt` is absent, with the overriding special case that an
absent access token together with a present refresh token counts as
expired. -/
theorem isTokenExpired_eq_isExpiredSpec (s : Session) (now : Int) :
    isTokenExpired s now = isExpiredSpec s now := by
  cases h : s.tokenExpiresAt <;> simp [isTokenExpired, isExpiredSpec, h]

/-- Claim C3, counterexample: in the session state with no
`tokenExpiresAt`, no access token and a refresh token on file,
`isTokenExpired` returns `true`, not `false` as the claim demands for
every expiry-absent state. -/
theorem isTokenExpired_absent_expiry_cex :
    isTokenExpired
      { accessToken := none, refreshToken := some "rt", realmId := none,
        tokenExpiresAt := none } 0 = true := by
  decide

/-- Claim C3, amended: for every session state with `tokenExpiresAt`
absent, `isTokenExpired` returns false — except in the states where the
access token is absent (falsy) and a refresh token is present, which
return true by the special case. -/
theorem isTokenExpired_absent_expiry_false (s : Session) (now : Int)
    (hexp : s.tokenExpiresAt = none)
    (hns : (!(jsTruthy s.accessToken) && jsTruthy s.refreshToken) = false) :
    isTokenExpired s now = false := by
  simp only [isTokenExpired, hexp, hns]
  simp

/-- Claim C3, witness for the amended theorem: a session with an access
token present and expiry absent is reported not expired. -/
theorem isTokenExpired_absent_expiry_false_witness :
    isTokenExpired
      { accessToken := some "tok", refreshToken := some "rt", realmId := some "r",
        tokenExpiresAt := none } 0 = false :=
  isTokenExpired_absent_expiry_false _ 0 rfl (by decide)

/-- Claim C7, counterexample: `setAccessToken` called with identical
arguments (no refresh token, no expiry) from two prior states that
differ only in the stored refresh token yields different session
states — the stored refresh token is preserved, so the post-state is
not determined by the call's arguments alone. -/
theorem setAccessToken_not_determined_by_args_cex :
    setAccessToken
      { accessToken := none, refreshToken := some "old", realmId := none,
        tokenExpiresAt := none } 0 "a" "r" none none ≠
    setAccessToken
      { accessToken := none, refreshToken := none, realmId := none,
        tokenExpiresAt := none } 0 "a" "r" none none := by
  decide

/-- Claim C7, amended: `setAccessToken` accepts any input without
validation and overwrites `accessToken` and `realmId` unconditionally;
when a truthy `expiresIn` is given it stores
`tokenExpiresAt = now + expiresIn * 1000`; but `refreshToken` and
`tokenExpiresAt` are preserved from the prior state whenever the
corresponding argument is absent (falsy), so those two fields are not
determined by the arguments alone. -/
theorem setAccessToken_overwrite_behavior (s : Session) (now : Int)
    (accessToken realmId : String) (refreshToken : Option String)
    (expiresIn : Option Int) :
    (setAccessToken s now accessToken realmId refreshToken expiresIn).accessToken
        = some accessToken ∧
    (setAccessToken s now accessToken realmId refreshToken expiresIn).realmId
        = some realmId ∧
    (setAccessToken s now accessToken realmId refreshToken expiresIn).refreshToken
        = (if jsTruthy refreshToken then refreshToken else s.refreshToken) ∧
    (setAccessToken s now accessToken realmId refreshToken expiresIn).tokenExpiresAt
        = (if jsTruthyInt expiresIn then some (now + expiresIn.getD 0 * 1000)
           else s.tokenExpiresAt) := by
  refine ⟨rfl, rfl, rfl, rfl⟩

/-- Shorthand constructor for a session value. -/
def mkSession (accessToken refreshToken realmId : Option String)
    (tokenExpiresAt : Option Int) : Session :=
  { accessToken := accessToken
    refreshToken := refreshToken
    realmId := realmId
    tokenExpiresAt := tokenExpiresAt }

/-- Shorthand constructor for a machine state with fresh counters. -/
def mkMach (s : Session) : Mach :=
  { session := s
    refreshCount := 0
    requests := [] }

/-- A concrete machine for the C4 scenario: expired access token,
refresh token on file. -/
def mC4 : Mach :=
  mkMach (mkSession (some "tok") (some "rt") (some "realm") (some (-1)))

/-- A concrete world for the C4 counterexample: the token endpoint
fails with HTTP 500 (neither 400 nor 401). -/
def wC4 : World :=
  { now := 0
    tokenEndpoint := fun _ => Except.error 500
    httpCall := fun _ => Except.error { response := none, status := none }
    itemBody := Except.ok () }

/-- Claim C4, counterexample: with the token endpoint failing with HTTP
500 — a status that is neither 400 nor 401 — `ensureValidToken` does
not propagate that failure unchanged; it raises the terminal
re-authentication error with status 401, because `refreshAccessToken`
wraps every endpoint failure into a status-400
`'Failed to refresh access token'` error before `ensureValidToken`
classifies it. -/
theorem ensureValidToken_other_status_cex :
    (ensureValidTokenM wC4 mC4).1 =
      Except.error (HttpError.ofString
        "Refresh token expired or invalid. Please re-authenticate to get a new refresh token."
        401) := by
  rfl

/-- Claim C4, amended: with a refresh token on file and an expired
token, `ensureValidToken` performs a refresh, and EVERY token-endpoint
failure — regardless of its HTTP status — results in the terminal
re-authentication error with status 401: `refreshAccessToken` wraps
every failure into a status-400 error, which always satisfies
`ensureValidToken`'s 400/401 check.  (An error reaching the check with
any other status would propagate unchanged, but no such error escapes
`refreshAccessToken`.) -/
theorem ensureValidToken_refresh_failure_terminal (w : World) (m : Mach) (st : Nat)
    (hrt : jsTruthy m.session.refreshToken = true)
    (hex : isTokenExpired m.session w.now = true)
    (hend : w.tokenEndpoint m.refreshCount = Except.error st) :
    ensureValidTokenM w m =
      (Except.error (HttpError.ofString
        "Refresh token expired or invalid. Please re-authenticate to get a new refresh token."
        401),
       { m with refreshCount := m.refreshCount + 1 }) := by
  simp [ensureValidTokenM, hrt, hex, refreshAccessTokenM, hend, HttpError.ofString]

/-- Claim C4, witness for the amended theorem: the concrete expired
session with a status-502 endpoint failure reaches the terminal
re-authentication error. -/
theorem ensureValidToken_refresh_failure_terminal_witness :
    ensureValidTokenM
      { now := 0, tokenEndpoint := fun _ => Except.error 502,
        httpCall := fun _ => Except.error { response := none, status := none },
        itemBody := Except.ok () } mC4 =
      (Except.error (HttpError.ofString
        "Refresh token expired or invalid. Please re-authenticate to get a new refresh token."
        401),
       { mC4 with refreshCount := 1 }) :=
  ensureValidToken_refresh_failure_terminal _ mC4 502 (by decide) (by decide) rfl

/-- Claim C5: with no refresh token on file, `ensureValidToken` is a
no-op — it returns without error, contacts the token endpoint zero
times and leaves every session field unchanged — even when the token is
expired; and the authenticated call wrapper still issues the wrapped
HTTP request (exactly one attempt is recorded, and the machine state
differs only by that recorded attempt). -/
theorem ensureValidToken_no_refresh_token_noop (w : World) (m : Mach)
    (method url : String) (query : Option String)
    (h : jsTruthy m.session.refreshToken = false) :
    ensureValidTokenM w m = (Except.ok (), m) ∧
    (makeRequestM w m method url query false).2 =
      { m with requests := m.requests ++
        [{ method := method, url := url, query := query, isRetry := false }] } := by
  constructor
  · simp [ensureValidTokenM, h]
  · cases hc : w.httpCall m.requests.length with
    | ok r => simp [makeRequestM, ensureValidTokenM, h, hc]
    | error e => simp [makeRequestM, ensureValidTokenM, h, hc]

/-- Claim C5, witness: a session whose token expired long ago but with
no refresh token: `ensureValidToken` is the identity and the wrapped
call is still issued. -/
theorem ensureValidToken_no_refresh_token_noop_witness :
    ensureValidTokenM wC4
      (mkMach (mkSession (some "stale") none (some "realm") (some (-1)))) =
      (Except.ok (), mkMach (mkSession (some "stale") none (some "realm") (some (-1)))) ∧
    (makeRequestM wC4
      (mkMach (mkSession (some "stale") none (some "realm") (some (-1))))
      "get" "/v3/u" none false).2 =
      { mkMach (mkSession (some "stale") none (some "realm") (some (-1))) with
        requests := [{ method := "get", url := "/v3/u", query := none, isRetry := false }] } :=
  ensureValidToken_no_refresh_token_noop wC4 _ "get" "/v3/u" none (by decide)

/-- Claim C6: a successful refresh whose vendor response omits the new
refresh token preserves the previously supplied refresh token, both in
the session and in the returned token payload; and when the response
omits the realm id, the session's stored realm id is used in both
places. -/
theorem refreshAccessToken_preserves_tokens (w : World) (m : Mach) (rt : String)
    (td : VendorTokenData) (realm : String)
    (hend : w.tokenEndpoint m.refreshCount = Except.ok td)
    (homit : jsTruthy td.refresh_token = false)
    (hrt : rt ≠ "")
    (hromit : jsTruthy td.realmId = false)
    (hrealm : m.session.realmId = some realm)
    (hrne : realm ≠ "") :
    (refreshAccessTokenM w m rt).1 =
      Except.ok
        { access_token := td.access_token
          refresh_token := rt
          expires_in := td.expires_in
          token_type := td.token_type
          realmId := realm } ∧
    (refreshAccessTokenM w m rt).2.session.refreshToken = some rt ∧
    (refreshAccessTokenM w m rt).2.session.realmId = some realm := by
  have hjs : jsOrS td.refresh_token rt = rt := by simp [jsOrS, homit]
  have hjr : jsOrS td.realmId (jsOrS m.session.realmId "") = realm := by
    unfold jsOrS
    rw [hromit, hrealm]
    simp [jsTruthy, hrne]
  refine ⟨?_, ?_, ?_⟩ <;>
    simp [refreshAccessTokenM, hend, hjs, hjr, setAccessToken, jsTruthy, hrt]

/-- The vendor token payload for the C6 witness: no refresh token, no
realm id. -/
def tdC6 : VendorTokenData :=
  { access_token := "newtok"
    refresh_token := none
    expires_in := some 3600
    token_type := "bearer"
    realmId := none }

/-- The world for the C6 witness. -/
def wC6 : World :=
  { now := 0
    tokenEndpoint := fun _ => Except.ok tdC6
    httpCall := fun _ => Except.error { response := none, status := none }
    itemBody := Except.ok () }

/-- Claim C6, witness: a concrete refresh whose vendor response carries
neither a refresh token nor a realm id returns and stores the old
refresh token and the session's realm id. -/
theorem refreshAccessToken_preserves_tokens_witness :
    (refreshAccessTokenM wC6 mC4 "rt").1 =
      Except.ok
        { access_token := "newtok"
          refresh_token := "rt"
          expires_in := some 3600
          token_type := "bearer"
          realmId := "realm" } ∧
    (refreshAccessTokenM wC6 mC4 "rt").2.session.refreshToken = some "rt" ∧
    (refreshAccessTokenM wC6 mC4 "rt").2.session.realmId = some "realm" :=
  refreshAccessToken_preserves_tokens wC6 mC4 "rt" tdC6 "realm" rfl (by decide)
    (by decide) (by decide) rfl (by decide)

/-- With a non-expired session and both the entity query and the count
query succeeding, `executeQuery` returns the entity rows of the first
response together with some total count, and records exactly the two
GET query attempts. -/
theorem executeQuery_two_ok (w : World) (m : Mach) (entity : String)
    (maxResults startPosition : Int) (whereClause : Option String) (r1 r2 : Resp)
    (hnx : isTokenExpired m.session w.now = false)
    (h1 : w.httpCall m.requests.length = Except.ok r1)
    (h2 : w.httpCall (m.requests.length + 1) = Except.ok r2) :
    ∃ tc : Int,
      executeQuery w m entity maxResults startPosition whereClause =
        (Except.ok
          { totalCount := tc
            startPosition := startPosition
            maxResults := maxResults
            items := (r1.data.QueryResponse.ent entity).getD [] },
         { m with requests := m.requests ++
            [{ method := "get", url := companyQueryUrl m.session.realmId,
               query := some (QuickBooksHelper.formatQuery entity maxResults startPosition whereClause),
               isRetry := false },
             { method := "get", url := companyQueryUrl m.session.realmId,
               query := some (QuickBooksHelper.formatCountQuery entity whereClause),
               isRetry := false }] }) := by
  have hq1 := makeRequestM_ok w m "get" (companyQueryUrl m.session.realmId)
    (some (QuickBooksHelper.formatQuery entity maxResults startPosition whereClause)) r1 hnx h1
  refine ⟨?_, ?_⟩
  case _ => exact
    match r2.data.QueryResponse.totalCount with
    | some n => n
    | none =>
      match r2.data.QueryResponse.ent entity with
      | some (r0 :: _) =>
        jsOrI (parseIntJS r0.Count)
          (Int.ofNat ((r1.data.QueryResponse.ent entity).getD []).length)
      | _ => Int.ofNat ((r1.data.QueryResponse.ent entity).getD []).length
  have hq2 := makeRequestM_ok w
    { m with requests := m.requests ++
      [{ method := "get", url := companyQueryUrl m.session.realmId,
         query := some (QuickBooksHelper.formatQuery entity maxResults startPosition whereClause),
         isRetry := false }] }
    "get" (companyQueryUrl m.session.realmId)
    (some (QuickBooksHelper.formatCountQuery entity whereClause)) r2
    (by simpa using hnx) (by simpa using h2)
  simp only [executeQuery, hq1, hq2]
  simp [List.append_assoc]

/-- Claim C8: when the entity query of a paginated list fetch succeeds
and the subsequent count query fails (with a non-authentication error,
so the count failure is final), `executeQuery` raises no error and
returns `totalCount` equal to the length of the returned item array. -/
theorem executeQuery_count_failure_fallback (w : World) (m : Mach) (entity : String)
    (maxResults startPosition : Int) (whereClause : Option String) (r : Resp)
    (e2 : ApiError)
    (hnx : isTokenExpired m.session w.now = false)
    (h1 : w.httpCall m.requests.length = Except.ok r)
    (h2 : w.httpCall (m.requests.length + 1) = Except.error e2)
    (hna : isAuthErrorOf e2 = false) :
    (executeQuery w m entity maxResults startPosition whereClause).1 =
      Except.ok
        { totalCount := (Int.ofNat ((r.data.QueryResponse.ent entity).getD []).length)
          startPosition := startPosition
          maxResults := maxResults
          items := (r.data.QueryResponse.ent entity).getD [] } := by
  have hq1 := makeRequestM_ok w m "get" (companyQueryUrl m.session.realmId)
    (some (QuickBooksHelper.formatQuery entity maxResults startPosition whereClause)) r hnx h1
  have hq2 := makeRequestM_err_no_retry w
    { m with requests := m.requests ++
      [{ method := "get", url := companyQueryUrl m.session.realmId,
         query := some (QuickBooksHelper.formatQuery entity maxResults startPosition whereClause),
         isRetry := false }] }
    "get" (companyQueryUrl m.session.realmId)
    (some (QuickBooksHelper.formatCountQuery entity whereClause)) e2
    (by simpa using hnx) (by simpa using h2) hna
  simp [executeQuery, hq1, hq2]

/-- A concrete customer row for the C8 witness. -/
def rowC8 : Row := { Id := some "1", Name := some "Acme", TypeF := none, Count := none }

/-- A non-expired machine used by the query-level witnesses of C8. -/
def mC8 : Mach := mkMach (mkSession (some "tok") (some "rt") (some "realm") none)

/-- The C8 witness world: the customer query succeeds with one row, the
count query fails with a plain 500. -/
def wC8 : World :=
  { now := 0
    tokenEndpoint := fun _ => Except.error 500
    httpCall := fun n =>
      if n = 0 then
        Except.ok { data := { QueryResponse := { totalCount := none, rows := [("Customer", [rowC8])] }, Item := none } }
      else
        Except.error { response := some { data := none, status := some 500 }, status := none }
    itemBody := Except.ok () }

/-- Claim C8, witness: the concrete one-row fetch with a failing count
query returns without error and reports `totalCount` 1, the length of
the item array. -/
theorem executeQuery_count_failure_fallback_witness :
    (executeQuery wC8 mC8 "Customer" 20 1 none).1 =
      Except.ok
        { totalCount := 1
          startPosition := 1
          maxResults := 20
          items := [rowC8] } := by
  have h := executeQuery_count_failure_fallback wC8 mC8 "Customer" 20 1 none
    { data := { QueryResponse := { totalCount := none, rows := [("Customer", [rowC8])] }, Item := none } }
    { response := some { data := none, status := some 500 }, status := none }
    (by decide) rfl rfl (by decide)
  simpa [QueryResponse.ent] using h

/-- A query response body whose `QueryResponse` carries the given
entity-keyed row arrays and no `totalCount`. -/
def entResp (rows : List (String × List Row)) : Resp :=
  { data := { QueryResponse := { totalCount := none, rows := rows }, Item := none } }

/-- Claim C9: when the upstream query of a query-by-id operation
succeeds with zero rows, `getCustomerById` / `getInvoiceById` /
`getItemById` raise the distinct not-found `HttpException` with status
404 (a string-bodied error, not a fault-envelope `handleApiError`
translation); with at least one row, the first row is returned. -/
theorem getById_zero_rows_404 (w : World) (m : Mach) (idv : String)
    (cs ivs its : List Row) (r2 : Resp)
    (hnx : isTokenExpired m.session w.now = false)
    (h1 : w.httpCall m.requests.length =
      Except.ok (entResp [("Customer", cs), ("Invoice", ivs), ("Item", its)]))
    (h2 : w.httpCall (m.requests.length + 1) = Except.ok r2) :
    (getCustomerById w m idv).1 = (match cs with
      | [] => Except.error (HttpError.ofString ("Customer with ID " ++ idv ++ " not found") 404)
      | c :: _ => Except.ok c) ∧
    (getInvoiceById w m idv).1 = (match ivs with
      | [] => Except.error (HttpError.ofString ("Invoice with ID " ++ idv ++ " not found") 404)
      | c :: _ => Except.ok c) ∧
    (getItemById w m idv).1 = (match its with
      | [] => Except.error (HttpError.ofString ("Item with ID " ++ idv ++ " not found") 404)
      | c :: _ => Except.ok c) := by
  refine ⟨?_, ?_, ?_⟩
  · obtain ⟨tc, heq⟩ := executeQuery_two_ok w m "Customer" 1 1 (some (idWhere idv)) _ r2 hnx h1 h2
    simp only [entResp, QueryResponse.ent] at heq
    simp only [getCustomerById, heq]
    cases cs <;> simp [QueryResponse.ent]
  · obtain ⟨tc, heq⟩ := executeQuery_two_ok w m "Invoice" 1 1 (some (idWhere idv)) _ r2 hnx h1 h2
    simp only [entResp, QueryResponse.ent] at heq
    simp only [getInvoiceById, heq]
    cases ivs <;> simp [QueryResponse.ent]
  · obtain ⟨tc, heq⟩ := executeQuery_two_ok w m "Item" 1 1 (some (idWhere idv)) _ r2 hnx h1 h2
    simp only [entResp, QueryResponse.ent] at heq
    simp only [getItemById, heq]
    cases its <;> simp [QueryResponse.ent]

/-- An item row for the C9 witness. -/
def rowC9 : Row := { Id := some "7", Name := some "Gadget", TypeF := some "Service", Count := none }

/-- The C9 zero-row world: every entity array is empty. -/
def wC9a : World :=
  { now := 0
    tokenEndpoint := fun _ => Except.error 500
    httpCall := fun n =>
      if n = 0 then Except.ok (entResp [("Customer", []), ("Invoice", []), ("Item", [])])
      else Except.ok (entResp [])
    itemBody := Except.ok () }

/-- The C9 found world: the item array holds one row. -/
def wC9b : World :=
  { now := 0
    tokenEndpoint := fun _ => Except.error 500
    httpCall := fun n =>
      if n = 0 then Except.ok (entResp [("Customer", []), ("Invoice", []), ("Item", [rowC9])])
      else Except.ok (entResp [])
    itemBody := Except.ok () }

/-- A non-expired machine for the C9 witness. -/
def mC9 : Mach := mkMach (mkSession (some "tok") (some "rt") (some "realm") none)

/-- Claim C9, witness: on zero rows `getCustomerById` raises the 404
not-found error; with a row present `getItemById` returns it. -/
theorem getById_zero_rows_404_witness :
    (getCustomerById wC9a mC9 "42").1 =
      Except.error (HttpError.ofString "Customer with ID 42 not found" 404) ∧
    (getItemById wC9b mC9 "7").1 = Except.ok rowC9 :=
  ⟨(getById_zero_rows_404 wC9a mC9 "42" [] [] [] (entResp []) (by decide) rfl rfl).1,
   (getById_zero_rows_404 wC9b mC9 "7" [] [] [rowC9] (entResp []) (by decide) rfl rfl).2.2⟩

/-- Claim C10: when the pre-create name lookup of `createItem` finds an
existing item (the lookup's where-clause covers inactive items via
`Active IN (true, false)`), `createItem` raises the 409 CONFLICT error
carrying `DUPLICATE_ITEM_NAME` and the existing item's Id/Name/Type,
and the recorded request trace consists of the two lookup GETs only —
no create POST is ever issued, so the upstream state is untouched on
this path. -/
theorem createItem_duplicate_name_409 (w : World) (m : Mach) (itemData : ItemInput)
    (ex : Row) (rest : List Row) (r2 : Resp)
    (hnx : isTokenExpired m.session w.now = false)
    (h1 : w.httpCall m.requests.length = Except.ok (entResp [("Item", ex :: rest)]))
    (h2 : w.httpCall (m.requests.length + 1) = Except.ok r2) :
    createItem w m itemData =
      (Except.error
        { message := "An item with the name \"" ++ itemData.Name ++ "\" already exists"
          code := some "DUPLICATE_ITEM_NAME"
          detail := none
          hint := some "Item names must be unique in QuickBooks. Please use a different name or update the existing item."
          existingItem := some { Id := ex.Id, Name := ex.Name, TypeF := ex.TypeF }
          originalError := none
          status := 409 },
       { m with requests := m.requests ++
          [{ method := "get", url := companyQueryUrl m.session.realmId,
             query := some (QuickBooksHelper.formatQuery "Item" 1 1 (some (nameActiveWhere itemData.Name))),
             isRetry := false },
           { method := "get", url := companyQueryUrl m.session.realmId,
             query := some (QuickBooksHelper.formatCountQuery "Item" (some (nameActiveWhere itemData.Name))),
             isRetry := false }] }) := by
  obtain ⟨tc, heq⟩ := executeQuery_two_ok w m "Item" 1 1
    (some (nameActiveWhere itemData.Name)) _ r2 hnx h1 h2
  simp only [entResp, QueryResponse.ent] at heq
  simp only [createItem, findItemByName, heq]
  simp [QueryResponse.ent]

/-- The C10 witness world: the name lookup finds one existing item. -/
def wC10 : World :=
  { now := 0
    tokenEndpoint := fun _ => Except.error 500
    httpCall := fun n =>
      if n = 0 then Except.ok (entResp [("Item", [rowC8])])
      else Except.ok (entResp [])
    itemBody := Except.ok () }

/-- A non-expired machine for the C10 witness. -/
def mC10 : Mach := mkMach (mkSession (some "tok") (some "rt") (some "realm") none)

/-- Claim C10, witness: creating an item named like the existing row
raises the DUPLICATE_ITEM_NAME 409 error and issues only the two
lookup GETs. -/
theorem createItem_duplicate_name_409_witness :
    createItem wC10 mC10 { Name := "Acme", TypeF := "Service" } =
      (Except.error
        { message := "An item with the name \"Acme\" already exists"
          code := some "DUPLICATE_ITEM_NAME"
          detail := none
          hint := some "Item names must be unique in QuickBooks. Please use a different name or update the existing item."
          existingItem := some { Id := some "1", Name := some "Acme", TypeF := none }
          originalError := none
          status := 409 },
       { mC10 with requests :=
          [{ method := "get", url := companyQueryUrl mC10.session.realmId,
             query := some (QuickBooksHelper.formatQuery "Item" 1 1 (some (nameActiveWhere "Acme"))),
             isRetry := false },
           { method := "get", url := companyQueryUrl mC10.session.realmId,
             query := some (QuickBooksHelper.formatCountQuery "Item" (some (nameActiveWhere "Acme"))),
             isRetry := false }] }) := by
  have h := createItem_duplicate_name_409 wC10 mC10 { Name := "Acme", TypeF := "Service" }
    rowC8 [] (entResp []) (by decide) rfl rfl
  simpa [rowC8] using h

/-- After a successful refresh stores a non-empty access token and a
comfortably large `expires_in`, the session is no longer expired. -/
theorem isTokenExpired_after_set (s : Session) (now : Int) (a realm : String)
    (rt : Option String) (ei : Int)
    (hat : a ≠ "") (hfresh : 5 * 60 * 1000 < ei * 1000) :
    isTokenExpired (setAccessToken s now a realm rt (some ei)) now = false := by
  have hei0 : ei ≠ 0 := by
    intro h0
    rw [h0] at hfresh
    omega
  simp only [setAccessToken, isTokenExpired, jsTruthy, jsTruthyInt]
  simp [hat, hei0]
  omega

/-- `makeRequest` at `isRetry = true` over a non-expired session:
the single attempt is recorded and its outcome is surfaced (through
`handleApiError` on failure). -/
theorem makeRequestRetry_behavior (w : World) (m : Mach) (method url : String)
    (query : Option String)
    (hnx : isTokenExpired m.session w.now = false) :
    makeRequestRetry w m method url query =
      ((match w.httpCall m.requests.length with
        | Except.ok r => Except.ok r
        | Except.error err =>
          Except.error (handleApiError err ("API Request " ++ method.toUpper ++ " " ++ url))),
       { m with requests := m.requests ++
          [{ method := method, url := url, query := query, isRetry := true }] }) := by
  simp only [makeRequestRetry, ensureValidTokenM_noop w m hnx]
  cases hc : w.httpCall m.requests.length <;> simp

/-- Claim C1, amended: when the wrapped call fails with an
authentication failure (HTTP 401 or vendor fault code 3200), this is
not already a retry, a refresh token is on file and the refresh
succeeds with a usable token, then exactly one refresh-then-retry of
the original call occurs — the retry is recorded with `isRetry = true`,
exactly one token-endpoint POST happens, and no further attempt ever
follows the retry.  If the retry succeeds its response is returned;
but if the retry also fails (with 401 or anything else), the error
finally surfaced is derived from the FIRST failure — the retry's throw
lands in the `catch (refreshError)` block, which reports the original
error with the context `'API Request (after failed refresh)'` — not
from the second failure as the claim states. -/
theorem makeRequest_single_retry_surfaces_first_error
    (w : World) (m : Mach) (method url : String) (query : Option String)
    (e1 : ApiError) (td : VendorTokenData) (ei : Int)
    (hnx : isTokenExpired m.session w.now = false)
    (hrt : jsTruthy m.session.refreshToken = true)
    (h1 : w.httpCall m.requests.length = Except.error e1)
    (hauth : isAuthErrorOf e1 = true)
    (hrf : w.tokenEndpoint m.refreshCount = Except.ok td)
    (hat : td.access_token ≠ "")
    (hei : td.expires_in = some ei)
    (hfresh : 5 * 60 * 1000 < ei * 1000) :
    ((makeRequestM w m method url query false).2.requests =
        m.requests ++
          [{ method := method, url := url, query := query, isRetry := false },
           { method := method, url := url, query := query, isRetry := true }]) ∧
    ((makeRequestM w m method url query false).2.refreshCount = m.refreshCount + 1) ∧
    (∀ e2 : ApiError, w.httpCall (m.requests.length + 1) = Except.error e2 →
        (makeRequestM w m method url query false).1 =
          Except.error (handleApiError e1 "API Request (after failed refresh)")) ∧
    (∀ r : Resp, w.httpCall (m.requests.length + 1) = Except.ok r →
        (makeRequestM w m method url query false).1 = Except.ok r) := by
  have hs1 : isTokenExpired
      (setAccessToken m.session w.now td.access_token
        (jsOrS td.realmId (jsOrS m.session.realmId ""))
        (some (jsOrS td.refresh_token (m.session.refreshToken.getD "")))
        td.expires_in) w.now = false := by
    rw [hei]
    exact isTokenExpired_after_set m.session w.now td.access_token
      (jsOrS td.realmId (jsOrS m.session.realmId ""))
      (some (jsOrS td.refresh_token (m.session.refreshToken.getD ""))) ei hat hfresh
  have key : makeRequestM w m method url query false =
      ((match w.httpCall (m.requests.length + 1) with
        | Except.ok r => Except.ok r
        | Except.error _ =>
          Except.error (handleApiError e1 "API Request (after failed refresh)")),
       { session := setAccessToken m.session w.now td.access_token
            (jsOrS td.realmId (jsOrS m.session.realmId ""))
            (some (jsOrS td.refresh_token (m.session.refreshToken.getD "")))
            td.expires_in
         refreshCount := m.refreshCount + 1
         requests := m.requests ++
           [{ method := method, url := url, query := query, isRetry := false },
            { method := method, url := url, query := query, isRetry := true }] }) := by
    simp only [makeRequestM, ensureValidTokenM_noop w m hnx, h1, hauth, hrt,
      refreshAccessTokenM, hrf, Bool.true_and, Bool.and_self, if_true,
      makeRequestRetry]
    rw [ensureValidTokenM_noop]
    · cases hc2 : w.httpCall (m.requests.length + 1) with
      | ok r => simp [hc2, List.append_assoc]
      | error e2 => simp [hc2, List.append_assoc]
    · simpa using hs1
  refine ⟨?_, ?_, ?_, ?_⟩
  · rw [key]
  · rw [key]
  · intro e2 hc2
    rw [key, hc2]
  · intro r hc2
    rw [key, hc2]

/-- A 401 failure whose fault detail reads "first failure detail". -/
def e1C : ApiError :=
  { response := some
      { data := some
          { Fault := none
            fault := some
              { Error := none
                error := some
                  [{ Detail := some "first failure detail"
                     detail := none
                     Message := none
                     message := none
                     code := none }] } }
        status := some 401 }
    status := none }

/-- A 401 failure whose fault detail reads "second failure detail". -/
def e2C : ApiError :=
  { response := some
      { data := some
          { Fault := none
            fault := some
              { Error := none
                error := some
                  [{ Detail := some "second failure detail"
                     detail := none
                     Message := none
                     message := none
                     code := none }] } }
        status := some 401 }
    status := none }

/-- A successful refresh payload for the retry scenario. -/
def tdC1 : VendorTokenData :=
  { access_token := "newtok"
    refresh_token := none
    expires_in := some 3600
    token_type := "bearer"
    realmId := none }

/-- The C1 scenario world: the first resource attempt fails with
`e1C`, every later attempt fails with `e2C`, and the refresh succeeds. -/
def wC1 : World :=
  { now := 0
    tokenEndpoint := fun _ => Except.ok tdC1
    httpCall := fun n => if n = 0 then Except.error e1C else Except.error e2C
    itemBody := Except.ok () }

/-- The C1 scenario machine: authenticated, refresh token on file,
token not yet expired. -/
def mC1 : Mach := mkMach (mkSession (some "tok") (some "rt") (some "realm") (some 10000000))

/-- The message of a surfaced error (`""` for a success). -/
def errMessage : Except HttpError Resp → String
  | Except.error e => e.message
  | Except.ok _ => ""

/-- Claim C1, counterexample: in the concrete scenario where the first
call fails with a 401 reading "first failure detail", the refresh
succeeds, and the retried call fails with a 401 reading "second failure
detail", the error finally surfaced carries the FIRST failure's detail,
not the second's — contradicting the claim that the surfaced error is
derived from the second failure. -/
theorem makeRequest_second_failure_not_surfaced_cex :
    errMessage (makeRequestM wC1 mC1 "get" "/v3/x" none false).1 = "first failure detail" ∧
    errMessage (makeRequestM wC1 mC1 "get" "/v3/x" none false).1 ≠ "second failure detail" ∧
    (handleApiError e2C "API Request (after failed refresh)").message = "second failure detail" := by
  refine ⟨rfl, by decide, rfl⟩

/-- Claim C1, witness for the amended theorem: in the concrete retry
scenario exactly two attempts are recorded (the second with
`isRetry = true`), exactly one refresh happens, and the surfaced error
is `handleApiError` applied to the first failure with the
after-failed-refresh context. -/
theorem makeRequest_single_retry_surfaces_first_error_witness :
    (makeRequestM wC1 mC1 "get" "/v3/x" none false).2.requests =
      [{ method := "get", url := "/v3/x", query := none, isRetry := false },
       { method := "get", url := "/v3/x", query := none, isRetry := true }] ∧
    (makeRequestM wC1 mC1 "get" "/v3/x" none false).2.refreshCount = 1 ∧
    (makeRequestM wC1 mC1 "get" "/v3/x" none false).1 =
      Except.error (handleApiError e1C "API Request (after failed refresh)") := by
  have h := makeRequest_single_retry_surfaces_first_error wC1 mC1 "get" "/v3/x" none
    e1C tdC1 3600 (by decide) (by decide) rfl (by decide) rfl (by decide) rfl (by decide)
  exact ⟨h.1, h.2.1, h.2.2.1 e2C rfl⟩

end QBO
